import Mathlib

/-!
Shallow embedding of the log-ingestion core of the squad-aegis repository:

* `internal/logwatcher_manager/logwatcher_manager.go` — the connection
  manager (`ConnectToServer`, `DisconnectFromServer`,
  `GetServerConnectionStatus`, `cleanupAllConnections`,
  `calculateReconnectDelay`, `createLogSource`);
* `internal/server/servers.go` — the log-transport health prober
  (`testLogTransportFunctionality`, `buildBaseLogTransportStatus`,
  `probeLocalLogTransport`, `probeSFTPLogTransport`,
  `probeFTPLogTransport`, `mapProbeErrorReason`) and the UDP game-port
  reachability check (`checkUDPPort`).

Go machine integers (`int`, `int64`, `time.Duration`) are modelled as
`Int` with explicit two's-complement wrapping where overflow matters.
`time.Time` values are modelled as `Int` nanosecond instants; the caller
passes the current instant (`now`) explicitly where the Go code calls
`time.Now()`.  Network and filesystem effects are modelled by oracle
records holding the outcome of each I/O step, so the probe functions
become pure functions of those outcomes.  Goroutine spawning is modelled
by an `activeWatchers` counter on the connection record plus a Boolean
"spawned a watcher" component in the result of `ConnectToServer`.
-/

/-! ### Go primitives -/

/-- Two's-complement wrap of an integer into the signed 64-bit range,
modelling overflow of Go's `int64` / `time.Duration` arithmetic. -/
def wrap64 (x : Int) : Int :=
  (x + 2 ^ 63) % 2 ^ 64 - 2 ^ 63

/-- Go's conversion `uint(x)` of a 64-bit signed integer to `uint64`. -/
def goUint64 (x : Int) : Nat :=
  (x % 2 ^ 64).toNat

/-- Go's `1 << s` at type `int64`: high bits are discarded, and a shift
count of 64 or more yields 0 (both captured by wrapping `2 ^ s`). -/
def goShl1 (s : Nat) : Int :=
  wrap64 (2 ^ s)

/-- One second in nanoseconds (`time.Second`). -/
def timeSecond : Int := 1000000000

/-- Whitespace as trimmed by Go's `strings.TrimSpace`. -/
def isWS (c : Char) : Bool := c = ' ' || c = '\t' || c = '\n' || c = '\r'

/-- Drop leading and trailing whitespace from a character list. -/
def trimChars (l : List Char) : List Char :=
  ((l.dropWhile isWS).reverse.dropWhile isWS).reverse

/-- Model of Go's `strings.TrimSpace`. -/
def goTrimSpace (s : String) : String := String.mk (trimChars s.data)

/-- Model of Go's `strings.ToLower` (ASCII case folding suffices for the
strings compared here). -/
def goToLower (s : String) : String := String.mk (s.data.map Char.toLower)

/-- Does `pat` occur as a contiguous sublist of the second argument? -/
def infixChars : List Char → List Char → Bool
  | pat, [] => pat.isEmpty
  | pat, c :: rest => pat.isPrefixOf (c :: rest) || infixChars pat rest

/-- Model of Go's `strings.Contains s pat`. -/
def containsSub (s pat : String) : Bool :=
  infixChars pat.data s.data

/-! ### Data model of `logwatcher_manager` (`LogSourceConfig`, `LogSource`)

The Go declarations of `LogSourceType`, `LogSourceConfig` and the three
source constructors live in a file of the package that is not part of the
provided sources; their shape is fully determined by the uses in
`logwatcher_manager.go` and by the spec.  `LogSourceType` is a string
type with the three values `local`, `sftp`, `ftp` (spec §6:
`log_source_type ∈ {local, sftp, ftp}`). -/

/-- Modelled from the spec: `LogSourceType` is a string-typed enum; the
declaration file is absent from the provided sources.  The spec fixes the
values `local`, `sftp`, `ftp`. -/
abbrev LogSourceType := String

def LogSourceTypeLocal : LogSourceType := "local"

def LogSourceTypeSFTP : LogSourceType := "sftp"

def LogSourceTypeFTP : LogSourceType := "ftp"

/-- Modelled from the spec and the field uses in `logwatcher_manager.go`:
the configuration record for one log source.  `pollFrequency` is a
`time.Duration` in nanoseconds; `port` is a Go `int`. -/
structure LogSourceConfig where
  type_ : LogSourceType
  filePath : String
  host : String
  port : Int
  username : String
  password : String
  pollFrequency : Int
  readFromStart : Bool
deriving DecidableEq, Repr

/-- The value produced by a log-source constructor, recording which
constructor ran and with which arguments (`NewLocalFileSource`,
`NewSFTPSource`, `NewFTPSource`). -/
inductive LogSource where
  | localFile (filePath : String)
  | sftp (host : String) (port : Int) (username : String) (password : String)
      (filePath : String) (pollFrequency : Int) (readFromStart : Bool)
  | ftp (host : String) (port : Int) (username : String) (password : String)
      (filePath : String) (pollFrequency : Int) (readFromStart : Bool)
deriving DecidableEq, Repr

/-- `createLogSource` from `logwatcher_manager.go` lines 214–254: switch
on the config type, validate required fields, fill default port and poll
frequency, and call the matching constructor. -/
def createLogSource (config : LogSourceConfig) : Except String LogSource :=
  if config.type_ = LogSourceTypeLocal then
    if config.filePath = "" then
      .error "file path is required for local log source"
    else
      .ok (.localFile config.filePath)
  else if config.type_ = LogSourceTypeSFTP then
    if config.host = "" ∨ config.username = "" ∨ config.filePath = "" then
      .error "host, username, and file path are required for SFTP log source"
    else if config.password = "" then
      .error "password is required for SFTP log source"
    else
      let port := if config.port = 0 then 22 else config.port
      let pollFrequency :=
        if config.pollFrequency = 0 then 5 * timeSecond else config.pollFrequency
      .ok (.sftp config.host port config.username config.password
        config.filePath pollFrequency config.readFromStart)
  else if config.type_ = LogSourceTypeFTP then
    if config.host = "" ∨ config.username = "" ∨ config.password = "" ∨
        config.filePath = "" then
      .error "host, username, password, and file path are required for FTP log source"
    else
      let port := if config.port = 0 then 21 else config.port
      let pollFrequency :=
        if config.pollFrequency = 0 then 5 * timeSecond else config.pollFrequency
      .ok (.ftp config.host port config.username config.password
        config.filePath pollFrequency config.readFromStart)
  else
    .error ("unsupported log source type: " ++ config.type_)

/-- `calculateReconnectDelay` from `logwatcher_manager.go` lines 319–336:
`baseDelay * time.Duration(1 << uint(attempts-1))` capped at 60s, with
the 64-bit wrapping of the Go expression made explicit. -/
def calculateReconnectDelay (attempts : Int) : Int :=
  let baseDelay := 5 * timeSecond
  let maxDelay := 60 * timeSecond
  if attempts = 0 then 0
  else
    let delay := wrap64 (baseDelay * goShl1 (goUint64 (attempts - 1)))
    if delay > maxDelay then maxDelay else delay

/-! ### Manager state (`ServerLogConnection`, `LogwatcherManager`) -/

/-- `ServerLogConnection` from `logwatcher_manager.go` lines 19–31.
`logSource` is `none` exactly when the Go field holds `nil`.
`activeWatchers` counts live watcher goroutines for this record (a `go
m.watchLogs` spawn increments it, cancelling the watcher context zeroes
it); `sourceClosed` records whether `Close()` has been called on the
current `logSource`.  The `EventStore`, `Metrics` and mutex fields play
no part in the properties studied here and are elided. -/
structure ServerLogConnection where
  serverID : Nat
  logSource : Option LogSource
  config : LogSourceConfig
  connected : Bool
  lastUsed : Int
  reconnectAttempts : Int
  lastReconnectTime : Int
  activeWatchers : Nat
  sourceClosed : Bool
deriving DecidableEq, Repr

/-- The manager's registry of connections, `LogwatcherManager.connections`,
keyed by the server UUID (modelled as `Nat`). -/
structure ManagerState where
  connections : Nat → Option ServerLogConnection

/-- The manager as returned by `NewLogwatcherManager`: empty registry. -/
def initialManager : ManagerState := ⟨fun _ => none⟩

/-- Store the record for `serverID` (Go: `m.connections[serverID] = conn`
or mutation through the shared pointer). -/
def setConn (m : ManagerState) (serverID : Nat) (c : ServerLogConnection) :
    ManagerState :=
  ⟨fun j => if j = serverID then some c else m.connections j⟩

/-- `ServerConnectionStatus` from `logwatcher_manager.go` lines 46–50. -/
structure ServerConnectionStatus where
  connected : Bool
  config : LogSourceConfig
  lastUsed : Int
deriving DecidableEq, Repr

/-- Typed rendering of the three error returns of `ConnectToServer`
(`fmt.Errorf` values), keeping their payloads. -/
inductive ConnectError where
  | reconnectDelayed (remaining : Int)
  | reconnectFailed (msg : String)
  | createFailed (msg : String)
deriving DecidableEq, Repr

/-- `ConnectToServer` from `logwatcher_manager.go` lines 68–177.  `now` is
the instant at which the Go code reads `time.Now()`.  The result carries
the returned error (if any), the new manager state, and whether a new
watcher goroutine was spawned by this call. -/
def ConnectToServer (m : ManagerState) (now : Int) (serverID : Nat)
    (config : LogSourceConfig) :
    Except ConnectError Unit × ManagerState × Bool :=
  match m.connections serverID with
  | some conn =>
    if !conn.connected then
      -- reconnect path with exponential backoff
      let delay := calculateReconnectDelay conn.reconnectAttempts
      if now - conn.lastReconnectTime < delay then
        (.error (.reconnectDelayed (delay - (now - conn.lastReconnectTime))),
          m, false)
      else
        -- the attempt counter and clock are advanced before the source
        -- is built, so they persist even when construction fails
        let conn1 := { conn with
          reconnectAttempts := conn.reconnectAttempts + 1,
          lastReconnectTime := now }
        match createLogSource config with
        | .error e =>
          (.error (.reconnectFailed e), setConn m serverID conn1, false)
        | .ok logSource =>
          -- the old source (if any) is closed, the new one swapped in,
          -- and a fresh watcher spawned
          (.ok (), setConn m serverID { conn1 with
            logSource := some logSource,
            sourceClosed := false,
            config := config,
            connected := true,
            lastUsed := now,
            reconnectAttempts := 0,
            activeWatchers := conn1.activeWatchers + 1 }, true)
    else
      -- connection already exists and is connected
      (.ok (), setConn m serverID { conn with lastUsed := now }, false)
  | none =>
    match createLogSource config with
    | .error e => (.error (.createFailed e), m, false)
    | .ok logSource =>
      (.ok (), setConn m serverID {
        serverID := serverID,
        logSource := some logSource,
        config := config,
        connected := true,
        lastUsed := now,
        reconnectAttempts := 0,
        lastReconnectTime := 0,
        activeWatchers := 1,
        sourceClosed := false }, true)

/-- `DisconnectFromServer` from `logwatcher_manager.go` lines 180–211.
Note that the record is only marked disconnected; it is never deleted
from the registry map. -/
def DisconnectFromServer (m : ManagerState) (serverID : Nat) :
    Except String Unit × ManagerState :=
  match m.connections serverID with
  | none => (.error "server log connection not found", m)
  | some conn =>
    if !conn.connected then
      (.error "server log connection already disconnected", m)
    else
      (.ok (), setConn m serverID { conn with
        activeWatchers := 0,
        sourceClosed := if conn.logSource.isSome then true else conn.sourceClosed,
        connected := false })

/-- `GetServerConnectionStatus` from `logwatcher_manager.go` lines
506–522. -/
def GetServerConnectionStatus (m : ManagerState) (serverID : Nat) :
    Except String ServerConnectionStatus :=
  match m.connections serverID with
  | none => .error "server connection not found"
  | some conn =>
    .ok { connected := conn.connected, config := conn.config,
          lastUsed := conn.lastUsed }

/-- `cleanupAllConnections` from `logwatcher_manager.go` lines 533–554,
run by `StartConnectionManager` when `Shutdown` cancels the root context:
every connected record is cancelled, its source closed, and marked
disconnected; no record is removed from the map. -/
def cleanupAllConnections (m : ManagerState) : ManagerState :=
  ⟨fun j => (m.connections j).map fun conn =>
    if conn.connected then
      { conn with
        activeWatchers := 0,
        sourceClosed := if conn.logSource.isSome then true else conn.sourceClosed,
        connected := false }
    else conn⟩

/-! ### Call sequences on a single server id -/

/-- One external lifecycle call addressed to a fixed server id:
`ConnectToServer` at a given instant with a given config,
`DisconnectFromServer`, or `Shutdown` (which triggers
`cleanupAllConnections`). -/
inductive MCall where
  | connect (now : Int) (config : LogSourceConfig)
  | disconnect
  | shutdown
deriving DecidableEq, Repr

/-- Apply one call for server `id`; the second component is `some b` for
a connect call, with `b` true iff the call returned success. -/
def stepCall (id : Nat) (m : ManagerState) : MCall → ManagerState × Option Bool
  | .connect now config =>
    let r := ConnectToServer m now id config
    (r.2.1, some r.1.isOk)
  | .disconnect => ((DisconnectFromServer m id).2, none)
  | .shutdown => (cleanupAllConnections m, none)

/-- Run a sequence of calls for server `id`, collecting the success flag
of every connect call in order. -/
def runTrace (id : Nat) (m : ManagerState) : List MCall → ManagerState × List Bool
  | [] => (m, [])
  | c :: cs =>
    let r := stepCall id m c
    let rest := runTrace id r.1 cs
    (rest.1, match r.2 with
      | some b => b :: rest.2
      | none => rest.2)

/-! ### Health prober (`internal/server/servers.go`)

The probe functions perform network and filesystem I/O; each I/O step's
outcome is supplied by an oracle record, and the functions below are the
pure control flow of the Go code over those outcomes.  Error values are
represented by the string returned by `err.Error()`. -/

/-- `logTransportStatus` from `servers.go` (the JSON-facing struct):
`sourceType` and `reason` are the zero value `""` when unset. -/
structure LogTransportStatusR where
  enabled : Bool
  sourceType : String
  healthy : Bool
  reason : String
deriving DecidableEq, Repr

/-- The log-related columns of `models.Server` used by the prober;
pointer-typed Go fields are `Option`s. -/
structure ProbeServer where
  logSourceType : Option String
  logFilePath : Option String
  logHost : Option String
  logPort : Option Int
  logUsername : Option String
  logPassword : Option String
deriving DecidableEq, Repr

/-- `trimmedStringPtr` from `servers.go` lines 520–525. -/
def trimmedStringPtr (value : Option String) : String :=
  match value with
  | none => ""
  | some v => goTrimSpace v

/-- `mapProbeErrorReason` from `servers.go` lines 527–547: lowercase the
error text and normalize it by substring matching. -/
def mapProbeErrorReason (errText : String) : String :=
  let t := goToLower errText
  if containsSub t "permission" || containsSub t "denied" then
    "permission_denied"
  else if containsSub t "auth" || containsSub t "login" || containsSub t "password" then
    "authentication_failed"
  else if containsSub t "no such file" || containsSub t "not found" || containsSub t "cannot find" then
    "log_file_not_found"
  else if containsSub t "timeout" || containsSub t "deadline exceeded" then
    "timeout"
  else if containsSub t "refused" || containsSub t "unreachable" || containsSub t "reset" then
    "connection_failed"
  else
    "probe_failed"

/-- `buildBaseLogTransportStatus` from `servers.go` lines 379–395. -/
def buildBaseLogTransportStatus (server : ProbeServer) : LogTransportStatusR :=
  let sourceType := trimmedStringPtr server.logSourceType
  let filePath := trimmedStringPtr server.logFilePath
  if sourceType = "" ∨ filePath = "" then
    { enabled := false, sourceType := "", healthy := false,
      reason := "not_configured" }
  else
    { enabled := true, sourceType := goToLower sourceType, healthy := false,
      reason := "" }

/-- Outcome of the one-byte `file.Read` in the local probe: success, an
error satisfying `errors.Is(err, io.EOF)`, or another error. -/
inductive ReadOutcome where
  | ok
  | eof
  | err (msg : String)
deriving DecidableEq, Repr

/-- Oracle for the I/O steps of `probeLocalLogTransport`: the results of
`os.Stat` (with the directory bit of the `FileInfo`), `os.Open`, and the
one-byte read. -/
structure LocalProbeOracle where
  statRes : Except String Bool
  openRes : Except String Unit
  readRes : ReadOutcome
deriving Repr

/-- Oracle for `probeSFTPLogTransport`: results of `ssh.Dial`,
`sftp.NewClient`, and `client.Stat(filePath)`. -/
structure SFTPProbeOracle where
  dialRes : Except String Unit
  clientRes : Except String Unit
  statRes : Except String Unit
deriving Repr

/-- Oracle for `probeFTPLogTransport`: results of `ftp.Dial`,
`conn.Login`, and `conn.FileSize(filePath)`. -/
structure FTPProbeOracle where
  dialRes : Except String Unit
  loginRes : Except String Unit
  sizeRes : Except String Unit
deriving Repr

/-- `probeLocalLogTransport` from `servers.go` lines 397–429. -/
def probeLocalLogTransport (o : LocalProbeOracle)
    (status : LogTransportStatusR) : LogTransportStatusR :=
  match o.statRes with
  | .error e => { status with healthy := false, reason := mapProbeErrorReason e }
  | .ok isDir =>
    if isDir then
      { status with healthy := false, reason := "log_path_is_directory" }
    else
      match o.openRes with
      | .error e =>
        { status with healthy := false, reason := mapProbeErrorReason e }
      | .ok _ =>
        match o.readRes with
        | .err e =>
          { status with healthy := false, reason := mapProbeErrorReason e }
        | _ => { status with healthy := true, reason := "" }

/-- `probeSFTPLogTransport` from `servers.go` lines 431–478.  The
`filePath` argument and the computed port feed the oracle-modelled I/O
and do not influence control flow beyond it. -/
def probeSFTPLogTransport (server : ProbeServer) (o : SFTPProbeOracle)
    (status : LogTransportStatusR) : LogTransportStatusR :=
  let host := trimmedStringPtr server.logHost
  let username := trimmedStringPtr server.logUsername
  let password := trimmedStringPtr server.logPassword
  if host = "" ∨ username = "" ∨ password = "" then
    { status with healthy := false, reason := "missing_sftp_credentials" }
  else
    match o.dialRes with
    | .error e => { status with healthy := false, reason := mapProbeErrorReason e }
    | .ok _ =>
      match o.clientRes with
      | .error e => { status with healthy := false, reason := mapProbeErrorReason e }
      | .ok _ =>
        match o.statRes with
        | .error e => { status with healthy := false, reason := mapProbeErrorReason e }
        | .ok _ => { status with healthy := true, reason := "" }

/-- `probeFTPLogTransport` from `servers.go` lines 480–518. -/
def probeFTPLogTransport (server : ProbeServer) (o : FTPProbeOracle)
    (status : LogTransportStatusR) : LogTransportStatusR :=
  let host := trimmedStringPtr server.logHost
  let username := trimmedStringPtr server.logUsername
  let password := trimmedStringPtr server.logPassword
  if host = "" ∨ username = "" ∨ password = "" then
    { status with healthy := false, reason := "missing_ftp_credentials" }
  else
    match o.dialRes with
    | .error e => { status with healthy := false, reason := mapProbeErrorReason e }
    | .ok _ =>
      match o.loginRes with
      | .error e => { status with healthy := false, reason := mapProbeErrorReason e }
      | .ok _ =>
        match o.sizeRes with
        | .error e => { status with healthy := false, reason := mapProbeErrorReason e }
        | .ok _ => { status with healthy := true, reason := "" }

/-- `testLogTransportFunctionality` from `servers.go` lines 339–377.
`managerPresent` models `s.Dependencies.LogwatcherManager != nil`;
`connStatus` is `some b` when `GetServerConnectionStatus` returned
without error with `Connected = b`, `none` when it errored. -/
def testLogTransportFunctionality (server : ProbeServer)
    (includeLogProbe : Bool) (managerPresent : Bool)
    (connStatus : Option Bool) (lo : LocalProbeOracle)
    (so : SFTPProbeOracle) (fo : FTPProbeOracle) : LogTransportStatusR :=
  let status := buildBaseLogTransportStatus server
  if !status.enabled then status
  else
    let status :=
      if managerPresent then
        match connStatus with
        | some connected =>
          let s1 := { status with healthy := connected }
          let s2 :=
            if !s1.healthy && !includeLogProbe then
              { s1 with reason := "logwatcher_disconnected" }
            else s1
          if s2.healthy then { s2 with reason := "" } else s2
        | none => status
      else status
    if !includeLogProbe then
      if !status.healthy && status.reason = "" then
        { status with reason := "probe_not_requested" }
      else status
    else
      if status.sourceType = "local" then probeLocalLogTransport lo status
      else if status.sourceType = "sftp" then probeSFTPLogTransport server so status
      else if status.sourceType = "ftp" then probeFTPLogTransport server fo status
      else { status with healthy := false, reason := "unsupported_source_type" }

/-! ### UDP game-port reachability (`checkUDPPort`) -/

/-- Outcome of the one-byte `conn.Read` in `checkUDPPort`: success, or an
error with whether it is a `net.Error` (`errors.As` succeeds) and whether
`netErr.Timeout()` holds. -/
inductive UDPReadOutcome where
  | ok
  | err (isNetError : Bool) (timeout : Bool)
deriving DecidableEq, Repr

/-- Oracle for the I/O steps of `checkUDPPort`: `net.DialTimeout`,
`conn.SetDeadline`, the one-byte write, and the read. -/
structure UDPOracle where
  dialRes : Except String Unit
  deadlineRes : Except String Unit
  writeRes : Except String Unit
  readRes : UDPReadOutcome
deriving Repr

/-- `checkUDPPort` from `servers.go` lines 549–578. -/
def checkUDPPort (o : UDPOracle) : Bool :=
  match o.dialRes with
  | .error _ => false
  | .ok _ =>
    match o.deadlineRes with
    | .error _ => false
    | .ok _ =>
      match o.writeRes with
      | .error _ => false
      | .ok _ =>
        match o.readRes with
        | .ok => true
        | .err isNetError timeout => isNetError && timeout

/-! ### Concrete values for instantiations -/

/-- Does a Boolean list contain `true`?  Used to aggregate the success
flags collected by `runTrace`. -/
def anyTrue : List Bool → Bool
  | [] => false
  | b :: r => b || anyTrue r

/-- A valid local-file configuration. -/
def cfgLocal : LogSourceConfig :=
  ⟨"local", "squad.log", "", 0, "", "", 0, false⟩

/-- A connected registry record for server 7. -/
def connConnected : ServerLogConnection :=
  ⟨7, some (.localFile "squad.log"), cfgLocal, true, 0, 0, 0, 1, false⟩

/-- A manager whose only record is the connected record for server 7. -/
def mConnected : ManagerState :=
  ⟨fun j => if j = 7 then some connConnected else none⟩

/-- A disconnected record for server 7 with one failed reconnect attempt
recorded at instant 0. -/
def connDisconnected : ServerLogConnection :=
  ⟨7, some (.localFile "squad.log"), cfgLocal, false, 0, 1, 0, 0, true⟩

/-- A manager whose only record is the disconnected record for server 7. -/
def mDisconnected : ManagerState :=
  ⟨fun j => if j = 7 then some connDisconnected else none⟩

/-- A server row configured for SFTP log transport but with no host,
username or password. -/
def serverSFTPNoHost : ProbeServer :=
  ⟨some "sftp", some "squad.log", none, none, none, none⟩

/-- A server row configured for FTP log transport but with no host,
username or password. -/
def serverFTPNoHost : ProbeServer :=
  ⟨some "ftp", some "squad.log", none, none, none, none⟩

/-- A local-probe oracle in which every I/O step succeeds. -/
def loOk : LocalProbeOracle := ⟨.ok false, .ok (), .ok⟩

/-- An SFTP-probe oracle in which every I/O step succeeds. -/
def soOk : SFTPProbeOracle := ⟨.ok (), .ok (), .ok ()⟩

/-- An FTP-probe oracle in which every I/O step succeeds. -/
def foOk : FTPProbeOracle := ⟨.ok (), .ok (), .ok ()⟩

/-! ### Theorems -/

set_option maxRecDepth 40000

/-- C7: the backoff delay function returns 0 for attempt count 0 and, for
attempt counts 1 through 4, returns exactly 5s, 10s, 20s, and 40s
respectively. -/
theorem calculateReconnectDelay_first_attempts :
    calculateReconnectDelay 0 = 0 ∧
    calculateReconnectDelay 1 = 5 * timeSecond ∧
    calculateReconnectDelay 2 = 10 * timeSecond ∧
    calculateReconnectDelay 3 = 20 * timeSecond ∧
    calculateReconnectDelay 4 = 40 * timeSecond := by
  decide

/-- C3 counterexample: at attempt count 32 the Go expression
`5s * (1 << 31)` overflows `int64` and the computed delay is a large
negative duration rather than the 60s cap, so the delay is not 60s for
every attempt count ≥ 5 and the delays are not non-decreasing (the delay
drops between attempts 31 and 32). -/
theorem calculateReconnectDelay_overflow_at_32 :
    calculateReconnectDelay 32 ≠ 60 * timeSecond ∧
    calculateReconnectDelay 32 < calculateReconnectDelay 31 := by
  decide

/-- C3 amended: for every attempt count n with 5 ≤ n ≤ 31 the computed
backoff delay equals exactly the 60s cap, and the delay is non-decreasing
in the attempt count over the range 0 ≤ n ≤ 31 (beyond attempt 31 the
64-bit shift expression overflows). -/
theorem calculateReconnectDelay_cap_and_monotone :
    (∀ n : Nat, n < 32 → 5 ≤ n →
      calculateReconnectDelay (n : Int) = 60 * timeSecond) ∧
    (∀ n : Nat, n < 31 →
      calculateReconnectDelay (n : Int) ≤ calculateReconnectDelay ((n : Int) + 1)) := by
  decide

/-- Witness for the amended C3 theorem at attempt counts 7 and 3. -/
theorem calculateReconnectDelay_cap_and_monotone_witness :
    calculateReconnectDelay ((7 : Nat) : Int) = 60 * timeSecond ∧
    calculateReconnectDelay ((3 : Nat) : Int) ≤ calculateReconnectDelay (((3 : Nat) : Int) + 1) :=
  ⟨calculateReconnectDelay_cap_and_monotone.1 7 (by decide) (by decide),
   calculateReconnectDelay_cap_and_monotone.2 3 (by decide)⟩

/-- Helper: the three source-type strings are pairwise distinct. -/
theorem logSourceType_distinct :
    LogSourceTypeLocal ≠ LogSourceTypeSFTP ∧
    LogSourceTypeLocal ≠ LogSourceTypeFTP ∧
    LogSourceTypeSFTP ≠ LogSourceTypeFTP := by
  decide

/-- Helper: success branch of `createLogSource` for a local config. -/
theorem createLogSource_local_ok (cfg : LogSourceConfig)
    (ht : cfg.type_ = LogSourceTypeLocal) (hf : cfg.filePath ≠ "") :
    createLogSource cfg = .ok (.localFile cfg.filePath) := by
  unfold createLogSource
  rw [ht, if_pos rfl, if_neg hf]

/-- Helper: success branch of `createLogSource` for an SFTP config,
filling the default port 22 and default 5s poll frequency. -/
theorem createLogSource_sftp_ok (cfg : LogSourceConfig)
    (ht : cfg.type_ = LogSourceTypeSFTP) (hh : cfg.host ≠ "")
    (hu : cfg.username ≠ "") (hp : cfg.password ≠ "") (hf : cfg.filePath ≠ "") :
    createLogSource cfg = .ok (.sftp cfg.host
      (if cfg.port = 0 then 22 else cfg.port) cfg.username cfg.password
      cfg.filePath
      (if cfg.pollFrequency = 0 then 5 * timeSecond else cfg.pollFrequency)
      cfg.readFromStart) := by
  unfold createLogSource
  rw [ht, if_neg (by decide), if_pos rfl,
    if_neg (by simp [hh, hu, hf]), if_neg hp]

/-- Helper: success branch of `createLogSource` for an FTP config,
filling the default port 21 and default 5s poll frequency. -/
theorem createLogSource_ftp_ok (cfg : LogSourceConfig)
    (ht : cfg.type_ = LogSourceTypeFTP) (hh : cfg.host ≠ "")
    (hu : cfg.username ≠ "") (hp : cfg.password ≠ "") (hf : cfg.filePath ≠ "") :
    createLogSource cfg = .ok (.ftp cfg.host
      (if cfg.port = 0 then 21 else cfg.port) cfg.username cfg.password
      cfg.filePath
      (if cfg.pollFrequency = 0 then 5 * timeSecond else cfg.pollFrequency)
      cfg.readFromStart) := by
  unfold createLogSource
  rw [ht, if_neg (by decide), if_neg (by decide), if_pos rfl,
    if_neg (by simp [hh, hu, hp, hf])]

/-- Helper: `createLogSource` returns an error exactly when a required
field is missing or the source type is unrecognized. -/
theorem createLogSource_error_iff (cfg : LogSourceConfig) :
    (∃ e, createLogSource cfg = .error e) ↔
      ((cfg.type_ = LogSourceTypeLocal ∧ cfg.filePath = "") ∨
       (cfg.type_ = LogSourceTypeSFTP ∧
         (cfg.host = "" ∨ cfg.username = "" ∨ cfg.password = "" ∨ cfg.filePath = "")) ∨
       (cfg.type_ = LogSourceTypeFTP ∧
         (cfg.host = "" ∨ cfg.username = "" ∨ cfg.password = "" ∨ cfg.filePath = "")) ∨
       (cfg.type_ ≠ LogSourceTypeLocal ∧ cfg.type_ ≠ LogSourceTypeSFTP ∧
         cfg.type_ ≠ LogSourceTypeFTP)) := by
  have hd := logSourceType_distinct
  unfold createLogSource
  split_ifs with h1 h2 h3 h4 h5 h6 h7 <;>
    (simp_all; try tauto)

/-- C9: log source construction fails exactly when required fields are
missing — file path for the local variant; host, username, password, and
file path for the SFTP and FTP variants; any unrecognized source type —
and otherwise succeeds, filling a zero port with the default 22 (sftp) or
21 (ftp) and a zero poll frequency with the default 5 seconds. -/
theorem createLogSource_validation (cfg : LogSourceConfig) :
    ((∃ e, createLogSource cfg = .error e) ↔
      ((cfg.type_ = LogSourceTypeLocal ∧ cfg.filePath = "") ∨
       (cfg.type_ = LogSourceTypeSFTP ∧
         (cfg.host = "" ∨ cfg.username = "" ∨ cfg.password = "" ∨ cfg.filePath = "")) ∨
       (cfg.type_ = LogSourceTypeFTP ∧
         (cfg.host = "" ∨ cfg.username = "" ∨ cfg.password = "" ∨ cfg.filePath = "")) ∨
       (cfg.type_ ≠ LogSourceTypeLocal ∧ cfg.type_ ≠ LogSourceTypeSFTP ∧
         cfg.type_ ≠ LogSourceTypeFTP))) ∧
    (cfg.type_ = LogSourceTypeLocal → cfg.filePath ≠ "" →
      createLogSource cfg = .ok (.localFile cfg.filePath)) ∧
    (cfg.type_ = LogSourceTypeSFTP → cfg.host ≠ "" → cfg.username ≠ "" →
      cfg.password ≠ "" → cfg.filePath ≠ "" →
      createLogSource cfg = .ok (.sftp cfg.host
        (if cfg.port = 0 then 22 else cfg.port) cfg.username cfg.password
        cfg.filePath
        (if cfg.pollFrequency = 0 then 5 * timeSecond else cfg.pollFrequency)
        cfg.readFromStart)) ∧
    (cfg.type_ = LogSourceTypeFTP → cfg.host ≠ "" → cfg.username ≠ "" →
      cfg.password ≠ "" → cfg.filePath ≠ "" →
      createLogSource cfg = .ok (.ftp cfg.host
        (if cfg.port = 0 then 21 else cfg.port) cfg.username cfg.password
        cfg.filePath
        (if cfg.pollFrequency = 0 then 5 * timeSecond else cfg.pollFrequency)
        cfg.readFromStart)) :=
  ⟨createLogSource_error_iff cfg,
   fun ht hf => createLogSource_local_ok cfg ht hf,
   fun ht hh hu hp hf => createLogSource_sftp_ok cfg ht hh hu hp hf,
   fun ht hh hu hp hf => createLogSource_ftp_ok cfg ht hh hu hp hf⟩

/-- Witness for C9 at concrete configurations: an empty local file path
is rejected, and a complete SFTP config with zero port and zero poll
frequency is accepted with the defaults filled in. -/
theorem createLogSource_validation_witness :
    (∃ e, createLogSource ⟨"local", "", "", 0, "", "", 0, false⟩ = .error e) ∧
    createLogSource ⟨"sftp", "squad.log", "h", 0, "u", "pw", 0, false⟩ =
      .ok (.sftp "h" (if (0 : Int) = 0 then 22 else 0) "u" "pw" "squad.log"
        (if (0 : Int) = 0 then 5 * timeSecond else 0) false) :=
  ⟨(createLogSource_validation ⟨"local", "", "", 0, "", "", 0, false⟩).1.mpr
      (Or.inl ⟨rfl, rfl⟩),
   (createLogSource_validation ⟨"sftp", "squad.log", "h", 0, "u", "pw", 0, false⟩).2.2.1
      rfl (by decide) (by decide) (by decide) (by decide)⟩

/-- C4 counterexample: `createLogSource` accepts out-of-range poll
frequencies unchanged and without error — an SFTP config with a 301s poll
frequency and an FTP config with a 1ns poll frequency are both accepted
verbatim, so poll frequency is not clamped to the 1s–300s range and
out-of-range values are not rejected. -/
theorem createLogSource_no_clamp_counterexample :
    createLogSource ⟨"sftp", "squad.log", "h", 0, "u", "pw", 301 * timeSecond, false⟩ =
      .ok (.sftp "h" 22 "u" "pw" "squad.log" (301 * timeSecond) false) ∧
    createLogSource ⟨"ftp", "squad.log", "h", 0, "u", "pw", 1, false⟩ =
      .ok (.ftp "h" 21 "u" "pw" "squad.log" 1 false) :=
  ⟨rfl, rfl⟩

/-- C4 amended: `createLogSource` does not clamp or reject the poll
frequency.  For any SFTP or FTP config whose required fields are present,
construction succeeds and the constructed source carries the supplied
poll frequency unchanged whenever it is non-zero — including values below
1s or above 300s — with only a zero value replaced by the 5s default. -/
theorem createLogSource_pollFrequency_passthrough (cfg : LogSourceConfig)
    (hh : cfg.host ≠ "") (hu : cfg.username ≠ "") (hp : cfg.password ≠ "")
    (hf : cfg.filePath ≠ "") :
    (cfg.type_ = LogSourceTypeSFTP →
      createLogSource cfg = .ok (.sftp cfg.host
        (if cfg.port = 0 then 22 else cfg.port) cfg.username cfg.password
        cfg.filePath
        (if cfg.pollFrequency = 0 then 5 * timeSecond else cfg.pollFrequency)
        cfg.readFromStart)) ∧
    (cfg.type_ = LogSourceTypeFTP →
      createLogSource cfg = .ok (.ftp cfg.host
        (if cfg.port = 0 then 21 else cfg.port) cfg.username cfg.password
        cfg.filePath
        (if cfg.pollFrequency = 0 then 5 * timeSecond else cfg.pollFrequency)
        cfg.readFromStart)) :=
  ⟨fun ht => createLogSource_sftp_ok cfg ht hh hu hp hf,
   fun ht => createLogSource_ftp_ok cfg ht hh hu hp hf⟩

/-- Witness for the amended C4 theorem at a 400s poll frequency, far
above the alleged 300s bound: the value is passed through unchanged. -/
theorem createLogSource_pollFrequency_passthrough_witness :
    createLogSource ⟨"sftp", "squad.log", "h", 0, "u", "pw", 400 * timeSecond, false⟩ =
      .ok (.sftp "h" (if (0 : Int) = 0 then 22 else 0) "u" "pw" "squad.log"
        (if (400 * timeSecond : Int) = 0 then 5 * timeSecond else 400 * timeSecond)
        false) :=
  (createLogSource_pollFrequency_passthrough
      ⟨"sftp", "squad.log", "h", 0, "u", "pw", 400 * timeSecond, false⟩
      (by decide) (by decide) (by decide) (by decide)).1 rfl
/-- C5: calling `ConnectToServer` on a record that is already connected
returns success, refreshes `LastUsed` to the current instant, leaves
every other field of the record unchanged (in particular the stored
config, log source and reconnect counters), spawns no new watcher, and
leaves every other server's record untouched. -/
theorem ConnectToServer_idempotent_when_connected (m : ManagerState)
    (now : Int) (serverID : Nat) (config : LogSourceConfig)
    (conn : ServerLogConnection) (hconn : m.connections serverID = some conn)
    (hc : conn.connected = true) :
    (ConnectToServer m now serverID config).1 = .ok () ∧
    (ConnectToServer m now serverID config).2.2 = false ∧
    (ConnectToServer m now serverID config).2.1.connections serverID =
      some { conn with lastUsed := now } ∧
    (∀ j, j ≠ serverID →
      (ConnectToServer m now serverID config).2.1.connections j =
        m.connections j) := by
  simp only [ConnectToServer, hconn, hc, Bool.not_true, Bool.false_eq_true,
    if_false, setConn]
  exact ⟨trivial, trivial, by simp, fun j hj => by simp [hj]⟩

/-- Witness for C5: reconnecting to the already-connected server 7 at
instant 3 succeeds, spawns nothing, only refreshes `lastUsed`, and leaves
server 3's (absent) record untouched. -/
theorem ConnectToServer_idempotent_when_connected_witness :
    (ConnectToServer mConnected 3 7 cfgLocal).1 = .ok () ∧
    (ConnectToServer mConnected 3 7 cfgLocal).2.2 = false ∧
    (ConnectToServer mConnected 3 7 cfgLocal).2.1.connections 7 =
      some { connConnected with lastUsed := 3 } ∧
    (ConnectToServer mConnected 3 7 cfgLocal).2.1.connections 3 =
      mConnected.connections 3 := by
  have h := ConnectToServer_idempotent_when_connected mConnected 3 7 cfgLocal
    connConnected rfl rfl
  exact ⟨h.1, h.2.1, h.2.2.1, h.2.2.2 3 (by decide)⟩

/-- C6: calling `ConnectToServer` on a disconnected record before the
backoff delay has elapsed fails with the reconnect-delayed error carrying
the remaining duration and leaves the whole manager state — in particular
the record's attempt counter, reconnect clock, config, source and
connected flag — unchanged, spawning nothing. -/
theorem ConnectToServer_backoff_gate (m : ManagerState) (now : Int)
    (serverID : Nat) (config : LogSourceConfig) (conn : ServerLogConnection)
    (hconn : m.connections serverID = some conn)
    (hc : conn.connected = false)
    (hlt : now - conn.lastReconnectTime <
      calculateReconnectDelay conn.reconnectAttempts) :
    ConnectToServer m now serverID config =
      (.error (.reconnectDelayed (calculateReconnectDelay conn.reconnectAttempts -
        (now - conn.lastReconnectTime))), m, false) := by
  simp only [ConnectToServer, hconn, hc, Bool.not_false, if_true]
  rw [if_pos hlt]

/-- Witness for C6: server 7 is disconnected with one recorded attempt at
instant 0; at instant 5 the 5s backoff has not elapsed, so the call fails
with the remaining delay and changes nothing. -/
theorem ConnectToServer_backoff_gate_witness :
    ConnectToServer mDisconnected 5 7 cfgLocal =
      (.error (.reconnectDelayed (calculateReconnectDelay
        connDisconnected.reconnectAttempts - (5 - connDisconnected.lastReconnectTime))),
        mDisconnected, false) :=
  ConnectToServer_backoff_gate mDisconnected 5 7 cfgLocal connDisconnected
    rfl rfl (by decide)

/-- C8: `DisconnectFromServer` fails with the not-found error exactly
when no record exists, fails with the already-disconnected error exactly
when the record exists but is not connected (leaving the state unchanged
in both error cases), and on a connected record returns success, zeroes
the watcher count (the cancelled context stops the watcher), closes the
log source, sets `connected := false`, and touches no other server. -/
theorem DisconnectFromServer_spec (m : ManagerState) (serverID : Nat) :
    ((DisconnectFromServer m serverID).1 =
        .error "server log connection not found" ↔
      m.connections serverID = none) ∧
    ((DisconnectFromServer m serverID).1 =
        .error "server log connection already disconnected" ↔
      ∃ conn, m.connections serverID = some conn ∧ conn.connected = false) ∧
    ((m.connections serverID = none ∨
        (∃ conn, m.connections serverID = some conn ∧ conn.connected = false)) →
      (DisconnectFromServer m serverID).2 = m) ∧
    (∀ conn, m.connections serverID = some conn → conn.connected = true →
      (DisconnectFromServer m serverID).1 = .ok () ∧
      (DisconnectFromServer m serverID).2.connections serverID =
        some { conn with
          activeWatchers := 0,
          sourceClosed := if conn.logSource.isSome then true
            else conn.sourceClosed,
          connected := false } ∧
      (∀ j, j ≠ serverID →
        (DisconnectFromServer m serverID).2.connections j = m.connections j)) := by
  rcases hm : m.connections serverID with _ | conn
  · simp [DisconnectFromServer, hm]
  · rcases hc : conn.connected with _ | _
    · simp [DisconnectFromServer, hm, hc]
    · refine ⟨by simp [DisconnectFromServer, hm, hc], by simp [DisconnectFromServer, hm, hc],
        ?_, ?_⟩
      · rintro (h | ⟨c, hcm, hcc⟩)
        · simp [hm] at h
        · injection hcm with h
          subst h
          simp [hc] at hcc
      · intro c hcm hcc
        injection hcm with h
        subst h
        refine ⟨by simp [DisconnectFromServer, hm, hc], ?_, ?_⟩
        · simp [DisconnectFromServer, hm, hc, setConn]
        · intro j hj
          simp [DisconnectFromServer, hm, hc, setConn, hj]

/-- Witness for C8 covering all three cases at concrete states: an empty
registry yields the not-found error, a disconnected record yields the
already-disconnected error with the state unchanged, and a connected
record is disconnected in place with server 3 untouched. -/
theorem DisconnectFromServer_spec_witness :
    (DisconnectFromServer initialManager 7).1 =
      .error "server log connection not found" ∧
    (DisconnectFromServer mDisconnected 7).1 =
      .error "server log connection already disconnected" ∧
    (DisconnectFromServer mDisconnected 7).2 = mDisconnected ∧
    (DisconnectFromServer mConnected 7).1 = .ok () ∧
    (DisconnectFromServer mConnected 7).2.connections 7 =
      some { connConnected with
        activeWatchers := 0,
        sourceClosed := if connConnected.logSource.isSome then true
          else connConnected.sourceClosed,
        connected := false } ∧
    (DisconnectFromServer mConnected 7).2.connections 3 =
      mConnected.connections 3 := by
  have h1 := (DisconnectFromServer_spec initialManager 7).1.mpr rfl
  have h2 := (DisconnectFromServer_spec mDisconnected 7).2.1.mpr
    ⟨connDisconnected, rfl, rfl⟩
  have h3 := (DisconnectFromServer_spec mDisconnected 7).2.2.1
    (Or.inr ⟨connDisconnected, rfl, rfl⟩)
  have h4 := (DisconnectFromServer_spec mConnected 7).2.2.2 connConnected rfl rfl
  exact ⟨h1, h2, h3, h4.1, h4.2.1, h4.2.2 3 (by decide)⟩

/-- Helper: a `ConnectToServer` call leaves the record present exactly
when it was present before or the call returned success. -/
theorem connect_presence (m : ManagerState) (now : Int) (serverID : Nat)
    (config : LogSourceConfig) :
    ((ConnectToServer m now serverID config).2.1.connections serverID).isSome =
      ((m.connections serverID).isSome ||
        (ConnectToServer m now serverID config).1.isOk) := by
  rcases hm : m.connections serverID with _ | conn
  · simp only [ConnectToServer, hm]
    rcases hcs : createLogSource config with e | src <;>
      simp [hcs, hm, setConn, Except.isOk, Except.toBool]
  · rcases hc : conn.connected with _ | _
    · simp only [ConnectToServer, hm, hc, Bool.not_false, if_true]
      by_cases hlt : now - conn.lastReconnectTime <
          calculateReconnectDelay conn.reconnectAttempts
      · rw [if_pos hlt]
        simp [hm, Except.isOk, Except.toBool]
      · rw [if_neg hlt]
        rcases hcs : createLogSource config with e | src <;>
          simp [hcs, hm, setConn, Except.isOk, Except.toBool]
    · simp [ConnectToServer, hm, hc, setConn, Except.isOk, Except.toBool]

/-- Helper: `DisconnectFromServer` never changes whether the record is
present. -/
theorem disconnect_presence (m : ManagerState) (serverID : Nat) :
    ((DisconnectFromServer m serverID).2.connections serverID).isSome =
      (m.connections serverID).isSome := by
  rcases hm : m.connections serverID with _ | conn
  · simp [DisconnectFromServer, hm]
  · rcases hc : conn.connected with _ | _ <;>
      simp [DisconnectFromServer, hm, hc, setConn]

/-- Helper: shutdown cleanup never changes whether a record is present. -/
theorem cleanup_presence (m : ManagerState) (serverID : Nat) :
    ((cleanupAllConnections m).connections serverID).isSome =
      (m.connections serverID).isSome := by
  rcases hm : m.connections serverID with _ | conn <;>
    simp [cleanupAllConnections, hm]

/-- Helper: over any call sequence, the record for `id` is present at the
end exactly when it was present initially or some connect call in the
sequence returned success. -/
theorem runTrace_presence (id : Nat) (calls : List MCall) :
    ∀ m : ManagerState,
      ((runTrace id m calls).1.connections id).isSome =
        ((m.connections id).isSome || anyTrue (runTrace id m calls).2) := by
  induction calls with
  | nil => intro m; simp [runTrace, anyTrue]
  | cons c cs ih =>
    intro m
    cases c with
    | connect now config =>
      simp only [runTrace, stepCall]
      rw [ih, connect_presence, anyTrue, Bool.or_assoc]
    | disconnect =>
      simp only [runTrace, stepCall]
      rw [ih, disconnect_presence]
    | shutdown =>
      simp only [runTrace, stepCall]
      rw [ih, cleanup_presence]

/-- C1 counterexample: from an empty manager, a successful connect for
server 7 followed by a successful disconnect leaves the ConnectionRecord
still present in the registry, and a status query after the disconnect —
and likewise after a shutdown cleanup — succeeds with `connected = false`
instead of reporting the server as not found. -/
theorem record_survives_disconnect_counterexample :
    (DisconnectFromServer (ConnectToServer initialManager 0 7 cfgLocal).2.1 7).1 =
      .ok () ∧
    ((DisconnectFromServer (ConnectToServer initialManager 0 7 cfgLocal).2.1 7).2.connections 7).isSome =
      true ∧
    GetServerConnectionStatus
        (DisconnectFromServer (ConnectToServer initialManager 0 7 cfgLocal).2.1 7).2 7 =
      .ok { connected := false, config := cfgLocal, lastUsed := 0 } ∧
    GetServerConnectionStatus
        (cleanupAllConnections (ConnectToServer initialManager 0 7 cfgLocal).2.1) 7 =
      .ok { connected := false, config := cfgLocal, lastUsed := 0 } :=
  ⟨rfl, rfl, rfl, rfl⟩

/-- C1 amended: over every sequence of connect/disconnect/shutdown calls
for a single server id starting from the empty manager, the
ConnectionRecord is present exactly when at least one `ConnectToServer`
call in the sequence returned success; `DisconnectFromServer` and the
shutdown cleanup never remove the record — after either, the record is
still present and a status query succeeds, reporting `connected = false`
with the stored config. -/
theorem record_presence_amended (id : Nat) :
    (∀ calls : List MCall,
      ((runTrace id initialManager calls).1.connections id).isSome =
        anyTrue (runTrace id initialManager calls).2) ∧
    (∀ (m : ManagerState) (conn : ServerLogConnection),
      m.connections id = some conn → conn.connected = true →
      ((DisconnectFromServer m id).2.connections id).isSome = true ∧
      GetServerConnectionStatus (DisconnectFromServer m id).2 id =
        .ok { connected := false, config := conn.config,
              lastUsed := conn.lastUsed } ∧
      ((cleanupAllConnections m).connections id).isSome = true ∧
      GetServerConnectionStatus (cleanupAllConnections m) id =
        .ok { connected := false, config := conn.config,
              lastUsed := conn.lastUsed }) := by
  constructor
  · intro calls
    rw [runTrace_presence]
    simp [initialManager]
  · intro m conn hconn hc
    refine ⟨?_, ?_, ?_, ?_⟩
    · simp [DisconnectFromServer, hconn, hc, setConn]
    · simp [DisconnectFromServer, GetServerConnectionStatus, hconn, hc, setConn]
    · simp [cleanupAllConnections, hconn]
    · simp [cleanupAllConnections, GetServerConnectionStatus, hconn, hc]

/-- Witness for the amended C1 theorem: a connect-then-disconnect trace
for server 7 (presence equals the success flag aggregate), and the
disconnect/shutdown conjuncts at the concrete connected manager. -/
theorem record_presence_amended_witness :
    ((runTrace 7 initialManager [MCall.connect 0 cfgLocal, MCall.disconnect]).1.connections 7).isSome =
      anyTrue (runTrace 7 initialManager [MCall.connect 0 cfgLocal, MCall.disconnect]).2 ∧
    GetServerConnectionStatus (DisconnectFromServer mConnected 7).2 7 =
      .ok { connected := false, config := connConnected.config,
            lastUsed := connConnected.lastUsed } ∧
    GetServerConnectionStatus (cleanupAllConnections mConnected) 7 =
      .ok { connected := false, config := connConnected.config,
            lastUsed := connConnected.lastUsed } := by
  have h1 := (record_presence_amended 7).1 [MCall.connect 0 cfgLocal, MCall.disconnect]
  have h2 := (record_presence_amended 7).2 mConnected connConnected rfl rfl
  exact ⟨h1, h2.2.1, h2.2.2.2⟩

/-- Helper: `mapProbeErrorReason` only ever yields one of its six
constant normalization values. -/
theorem mapProbeErrorReason_mem (e : String) :
    mapProbeErrorReason e ∈ (["permission_denied", "authentication_failed",
      "log_file_not_found", "timeout", "connection_failed",
      "probe_failed"] : List String) := by
  simp only [mapProbeErrorReason]
  split_ifs <;> simp

/-- The reason values the probe pipeline can produce, beside the empty
string of a healthy result. -/
def probeReasonValues : List String :=
  ["permission_denied", "authentication_failed", "log_file_not_found",
   "timeout", "connection_failed", "probe_failed",
   "missing_sftp_credentials", "missing_ftp_credentials",
   "log_path_is_directory", "unsupported_source_type", "not_configured",
   "probe_not_requested", "logwatcher_disconnected"]

/-- Helper: reasons reachable from the local-transport probe. -/
theorem probeLocal_reason_mem (o : LocalProbeOracle)
    (status : LogTransportStatusR) :
    (probeLocalLogTransport o status).reason = "" ∨
      (probeLocalLogTransport o status).reason ∈ probeReasonValues := by
  unfold probeLocalLogTransport
  rcases o.statRes with e | isDir
  · have h := mapProbeErrorReason_mem e
    simp only [probeReasonValues, List.mem_cons, List.not_mem_nil, or_false] at h ⊢
    tauto
  · rcases isDir with _ | _
    · rcases o.openRes with e | u
      · have h := mapProbeErrorReason_mem e
        simp only [probeReasonValues, List.mem_cons, List.not_mem_nil, or_false] at h ⊢
        tauto
      · rcases o.readRes with _ | _ | e
        · simp
        · simp
        · have h := mapProbeErrorReason_mem e
          simp only [probeReasonValues, List.mem_cons, List.not_mem_nil, or_false] at h ⊢
          tauto
    · simp [probeReasonValues]

/-- Helper: reasons reachable from the SFTP-transport probe. -/
theorem probeSFTP_reason_mem (server : ProbeServer) (o : SFTPProbeOracle)
    (status : LogTransportStatusR) :
    (probeSFTPLogTransport server o status).reason = "" ∨
      (probeSFTPLogTransport server o status).reason ∈ probeReasonValues := by
  simp only [probeSFTPLogTransport]
  split_ifs
  · simp [probeReasonValues]
  · rcases o.dialRes with e | u
    · have h := mapProbeErrorReason_mem e
      simp only [probeReasonValues, List.mem_cons, List.not_mem_nil, or_false] at h ⊢
      tauto
    · rcases o.clientRes with e | u
      · have h := mapProbeErrorReason_mem e
        simp only [probeReasonValues, List.mem_cons, List.not_mem_nil, or_false] at h ⊢
        tauto
      · rcases o.statRes with e | u
        · have h := mapProbeErrorReason_mem e
          simp only [probeReasonValues, List.mem_cons, List.not_mem_nil, or_false] at h ⊢
          tauto
        · simp

/-- Helper: reasons reachable from the FTP-transport probe. -/
theorem probeFTP_reason_mem (server : ProbeServer) (o : FTPProbeOracle)
    (status : LogTransportStatusR) :
    (probeFTPLogTransport server o status).reason = "" ∨
      (probeFTPLogTransport server o status).reason ∈ probeReasonValues := by
  simp only [probeFTPLogTransport]
  split_ifs
  · simp [probeReasonValues]
  · rcases o.dialRes with e | u
    · have h := mapProbeErrorReason_mem e
      simp only [probeReasonValues, List.mem_cons, List.not_mem_nil, or_false] at h ⊢
      tauto
    · rcases o.loginRes with e | u
      · have h := mapProbeErrorReason_mem e
        simp only [probeReasonValues, List.mem_cons, List.not_mem_nil, or_false] at h ⊢
        tauto
      · rcases o.sizeRes with e | u
        · have h := mapProbeErrorReason_mem e
          simp only [probeReasonValues, List.mem_cons, List.not_mem_nil, or_false] at h ⊢
          tauto
        · simp

/-- Helper: the base status is either disabled with reason
`not_configured` or enabled with an empty reason. -/
theorem build_reason_cases (server : ProbeServer) :
    buildBaseLogTransportStatus server =
      ⟨false, "", false, "not_configured"⟩ ∨
    ∃ st, buildBaseLogTransportStatus server = ⟨true, st, false, ""⟩ := by
  simp only [buildBaseLogTransportStatus]
  split_ifs
  · left; rfl
  · right; exact ⟨_, rfl⟩

/-- C2 amended: every reason string the log transport health check can
produce — over all source types, manager states, error branches, and
missing-credential branches — is either empty (healthy) or one of the
thirteen values `permission_denied`, `authentication_failed`,
`log_file_not_found`, `timeout`, `connection_failed`, `probe_failed`,
`missing_sftp_credentials`, `missing_ftp_credentials`,
`log_path_is_directory`, `unsupported_source_type`, `not_configured`,
`probe_not_requested`, `logwatcher_disconnected`. -/
theorem testLogTransport_reason_enumeration (server : ProbeServer)
    (includeLogProbe managerPresent : Bool) (connStatus : Option Bool)
    (lo : LocalProbeOracle) (so : SFTPProbeOracle) (fo : FTPProbeOracle) :
    (testLogTransportFunctionality server includeLogProbe managerPresent
      connStatus lo so fo).reason = "" ∨
    (testLogTransportFunctionality server includeLogProbe managerPresent
      connStatus lo so fo).reason ∈ probeReasonValues := by
  rcases build_reason_cases server with hb | ⟨st, hb⟩
  · simp [testLogTransportFunctionality, hb, probeReasonValues]
  · simp only [testLogTransportFunctionality, hb]
    cases managerPresent <;> cases includeLogProbe <;>
      rcases connStatus with _ | (_ | _) <;>
      simp only [Bool.not_true, Bool.not_false, Bool.false_and, Bool.true_and,
        Bool.and_false, Bool.and_true, Bool.and_self, if_true, if_false,
        Bool.false_eq_true, Bool.true_eq_false, ite_true, ite_false] <;>
      first
        | exact probeLocal_reason_mem _ _
        | exact probeSFTP_reason_mem _ _ _
        | exact probeFTP_reason_mem _ _ _
        | (split_ifs <;>
            first
              | exact probeLocal_reason_mem _ _
              | exact probeSFTP_reason_mem _ _ _
              | exact probeFTP_reason_mem _ _ _
              | simp [probeReasonValues])
        | simp [probeReasonValues]

/-- C2 counterexample: with SFTP (resp. FTP) transport configured but
credentials absent, the probe produces the reason
`missing_sftp_credentials` (resp. `missing_ftp_credentials`), neither of
which is among the twelve enumerated values — in particular the
enumerated `missing_credentials` is not what the code emits. -/
theorem missing_credentials_reason_counterexample :
    (testLogTransportFunctionality serverSFTPNoHost true false none
      loOk soOk foOk).reason = "missing_sftp_credentials" ∧
    (testLogTransportFunctionality serverFTPNoHost true false none
      loOk soOk foOk).reason = "missing_ftp_credentials" ∧
    "missing_sftp_credentials" ∉ (["permission_denied",
      "authentication_failed", "log_file_not_found", "timeout",
      "connection_failed", "probe_failed", "missing_credentials",
      "log_path_is_directory", "unsupported_source_type", "not_configured",
      "probe_not_requested", "logwatcher_disconnected"] : List String) ∧
    "missing_ftp_credentials" ∉ (["permission_denied",
      "authentication_failed", "log_file_not_found", "timeout",
      "connection_failed", "probe_failed", "missing_credentials",
      "log_path_is_directory", "unsupported_source_type", "not_configured",
      "probe_not_requested", "logwatcher_disconnected"] : List String) :=
  ⟨rfl, rfl, by decide, by decide⟩

/-- C10: the UDP game-port reachability check returns true exactly when
the dial, deadline set, and one-byte write succeed and the read either
succeeds or fails with a timeout-flavoured network error; any dial,
deadline, or write failure, and any non-timeout read error, yields false
— so a true result does not require a reply from the server. -/
theorem checkUDPPort_spec (o : UDPOracle) :
    checkUDPPort o = true ↔
      (o.dialRes.isOk = true ∧ o.deadlineRes.isOk = true ∧
        o.writeRes.isOk = true ∧
        (o.readRes = .ok ∨ o.readRes = .err true true)) := by
  obtain ⟨d, dl, w, r⟩ := o
  rcases d with e | u <;> rcases dl with e2 | u2 <;> rcases w with e3 | u3 <;>
    rcases r with _ | ⟨b, t⟩ <;>
      simp [checkUDPPort, Except.isOk, Except.toBool]
